import Mathlib

/-!
Shallow embedding of the infonomy-server matching, inspection and settlement
pipeline (src/infonomy_server), together with theorems settling the claims
of the specification against it.

Conventions used throughout:
* Python `float` money amounts are modelled as `ℤ`: the pipeline only adds,
  subtracts, compares and takes `min` of amounts — never divides — so the
  embedding is parametric in the monetary unit and integer units keep every
  operation computable by the kernel.  The derived per-priority rates
  (`inspected/queries`) genuinely divide and are modelled as `ℚ`.
* Python `datetime` values are modelled as integer epoch seconds
  (`datetime.utcnow()` becomes an explicit `now : Int` parameter;
  `(a - b).total_seconds()` becomes `a - b`).
* Python dicts with `.get(k, 0)` access (the per-priority counters of
  `HumanBuyer`) are modelled as total functions `Nat → Nat` defaulting to 0.
* Python `None` becomes `Option.none`; Python truthiness of an optional
  string (`if x:`) is `x` being `some s` with `s` nonempty.
* Code that raises an exception is modelled in the `Except String` monad;
  `timedelta(seconds=None)` raising `TypeError` is `timedeltaSeconds none`.
-/

namespace Infonomy

/-! ## Basic string helpers (Python `in` on strings, case-insensitive) -/

/-- `leadsWith n h` is true when the char list `n` starts the char list `h`
(used to embed Python's substring test). -/
def leadsWith : List Char → List Char → Bool
  | [], _ => true
  | _ :: _, [] => false
  | a :: as, b :: bs => a == b && leadsWith as bs

/-- Python `needle in hay` on char lists. -/
def containsSub (needle : List Char) : List Char → Bool
  | [] => needle.isEmpty
  | c :: t => leadsWith needle (c :: t) || containsSub needle t

/-- Python `kw.lower() in text.lower()` — case-insensitive substring test. -/
def strContainsCI (hay kw : String) : Bool :=
  containsSub kw.toLower.data hay.toLower.data

/-! ## Data model (src/infonomy_server/models.py, fields per schemas.py and use sites) -/

/-- `User` ledger fields (models.py `User`; `available_balance`,
`purchased_info_offers` per schemas.py `UserRead` and their use sites in
tasks.py / routers). `balance` is the spec's `total_balance`. -/
structure UserRec where
  id : Nat
  balance : ℤ
  availableBalance : ℤ
  purchasedInfoOffers : List Nat
  deriving Repr, DecidableEq

/-- `HumanBuyer` (models.py): per-priority counters, modelled as total
functions with default 0 (the source reads them with `.get(priority, 0)`). -/
structure HumanBuyer where
  userId : Nat
  numQueries : Nat → Nat
  numInspected : Nat → Nat
  numPurchased : Nat → Nat

/-- `HumanBuyer.inspection_rate` property: `inspected/queries`, `0` when the
priority has no queries (models.py lines 108-114). -/
def inspectionRate (b : HumanBuyer) (p : Nat) : ℚ :=
  if b.numQueries p = 0 then 0 else (b.numInspected p : ℚ) / (b.numQueries p : ℚ)

/-- `HumanBuyer.purchase_rate` property (models.py lines 116-122). -/
def purchaseRate (b : HumanBuyer) (p : Nat) : ℚ :=
  if b.numQueries p = 0 then 0 else (b.numPurchased p : ℚ) / (b.numQueries p : ℚ)

/-- `DecisionContext` (models.py). -/
structure DecisionContext where
  id : Nat
  query : Option String
  contextPages : Option (List String)
  parentId : Option Nat
  buyerId : Nat
  maxBudget : ℤ
  priority : Nat
  createdAt : Int
  deriving Repr, DecidableEq

/-- `InfoOffer` (models.py). -/
structure InfoOffer where
  id : Nat
  contextId : Nat
  privateInfo : String
  publicInfo : Option String
  price : ℤ
  inspected : Bool
  purchased : Bool
  deriving Repr, DecidableEq

/-- `SellerMatcher` (models.py): a seller's standing subscription. -/
structure SellerMatcher where
  id : Nat
  keywords : Option (List String)
  contextPages : Option (List String)
  minMaxBudget : ℤ
  minInspectionRate : ℚ
  minPurchaseRate : ℚ
  minPriority : Nat
  buyerType : Option String
  ageLimit : Option Int
  deriving Repr, DecidableEq

/-- `MatcherInbox` (models.py), minus the DB-assigned surrogate id. -/
structure MatcherInbox where
  matcherId : Nat
  decisionContextId : Nat
  status : String
  createdAt : Int
  expiresAt : Int
  deriving Repr, DecidableEq

/-! ## Matcher fan-out (src/infonomy_server/utils.py) -/

/-- Error raised by Python's `timedelta(seconds=None)`. -/
def timedeltaNoneError : String :=
  "TypeError: unsupported type for timedelta seconds component: NoneType"

/-- `timedelta(seconds=s)` where `s` may be Python `None`:
raises `TypeError` on `None`. -/
def timedeltaSeconds : Option Int → Except String Int
  | some s => .ok s
  | none => .error timedeltaNoneError

/-- The `continue`-guards of the Python loop inside
`recompute_inbox_for_context` (utils.py lines 56-77): buyer type, rates,
keywords, context pages.  Note this path has no parent check and no
age-limit check. -/
def contextPathLoopGuards (m : SellerMatcher) (ctx : DecisionContext)
    (buyer : HumanBuyer) : Bool :=
  -- `if m.buyer_type and m.buyer_type != "human_buyer": continue`
  !(match m.buyerType with
    | some s => s != "" && s != "human_buyer"
    | none => false) &&
  -- `if irate < m.min_inspection_rate or prate < m.min_purchase_rate: continue`
  !(decide (inspectionRate buyer ctx.priority < m.minInspectionRate) ||
    decide (purchaseRate buyer ctx.priority < m.minPurchaseRate)) &&
  -- `if m.keywords is not None: ... if not any(kw.lower() in text ...): continue`
  !(match m.keywords with
    | some kws => !(kws.any (fun kw => strContainsCI (ctx.query.getD "") kw))
    | none => false) &&
  -- `if m.context_pages is not None: ... if not any(p in pages ...): continue`
  !(match m.contextPages with
    | some ps => !(ps.any (fun p => (ctx.contextPages.getD []).contains p))
    | none => false)

/-- The SQL prefilter shared by both refresh paths (utils.py lines 47-50 and
108-112): `max_budget >= min_max_budget` and `priority >= min_priority`. -/
def numericPrefilter (m : SellerMatcher) (ctx : DecisionContext) : Bool :=
  decide (m.minMaxBudget ≤ ctx.maxBudget) && decide (m.minPriority ≤ ctx.priority)

/-- Full per-pair matching condition of the refresh-by-context path
(prefilter plus loop guards). -/
def contextPathMatches (m : SellerMatcher) (ctx : DecisionContext)
    (buyer : HumanBuyer) : Bool :=
  numericPrefilter m ctx && contextPathLoopGuards m ctx buyer

/-- `recompute_inbox_for_context` (utils.py lines 36-96): purge is modelled
by the caller replacing this context's rows with the returned list; the
matching loop builds fresh rows, computing
`expires_at = now + timedelta(seconds=m.age_limit)` for each match — which
raises when `age_limit` is `None`. -/
def contextFanoutStep (ctx : DecisionContext) (buyer : HumanBuyer) (now : Int)
    (acc : List MatcherInbox) (m : SellerMatcher) :
    Except String (List MatcherInbox) :=
  if contextPathLoopGuards m ctx buyer then do
    let secs ← timedeltaSeconds m.ageLimit
    pure (acc ++ [{ matcherId := m.id, decisionContextId := ctx.id,
                    status := "new", createdAt := now,
                    expiresAt := now + secs }])
  else pure acc

def recomputeInboxForContext (ctx : DecisionContext)
    (matchers : List SellerMatcher) (buyer : HumanBuyer) (now : Int) :
    Except String (List MatcherInbox) :=
  (matchers.filter (fun m => numericPrefilter m ctx)).foldlM
    (contextFanoutStep ctx buyer now) []

/-- The `continue`-guards of the Python loop inside
`recompute_inbox_for_matcher` (utils.py lines 117-150): parent (recursive
context) check, buyer type, rates, keywords, context pages, and the
age-limit check that the context path lacks. -/
def matcherPathLoopGuards (m : SellerMatcher) (ctx : DecisionContext)
    (buyer : HumanBuyer) (now : Int) : Bool :=
  -- `if ctx.parent_id is not None: continue`
  ctx.parentId.isNone &&
  -- `if matcher.buyer_type and matcher.buyer_type != "human_buyer": continue`
  !(match m.buyerType with
    | some s => s != "" && s != "human_buyer"
    | none => false) &&
  -- rates
  !(decide (inspectionRate buyer ctx.priority < m.minInspectionRate) ||
    decide (purchaseRate buyer ctx.priority < m.minPurchaseRate)) &&
  -- keywords
  !(match m.keywords with
    | some kws => !(kws.any (fun kw => strContainsCI (ctx.query.getD "") kw))
    | none => false) &&
  -- context pages
  !(match m.contextPages with
    | some ps => !(ps.any (fun p => (ctx.contextPages.getD []).contains p))
    | none => false) &&
  -- `if matcher.age_limit is not None: if age_seconds > matcher.age_limit: continue`
  !(match m.ageLimit with
    | some l => decide (now - ctx.createdAt > l)
    | none => false)

/-- Full per-pair matching condition of the refresh-by-subscription path. -/
def matcherPathMatches (m : SellerMatcher) (ctx : DecisionContext)
    (buyer : HumanBuyer) (now : Int) : Bool :=
  numericPrefilter m ctx && matcherPathLoopGuards m ctx buyer now

/-- The age-limit skip of the matcher path in isolation (utils.py lines
146-150): true when the pair is skipped because the context is too old. -/
def ageLimitSkip (m : SellerMatcher) (ctx : DecisionContext) (now : Int) : Bool :=
  match m.ageLimit with
  | some l => decide (now - ctx.createdAt > l)
  | none => false

/-- `recompute_inbox_for_matcher` (utils.py lines 99-174): same structure
as the context path but iterating over candidate contexts, with the parent
and age-limit skips.  `buyerOf` resolves the `ctx.buyer` relationship. -/
def matcherFanoutStep (m : SellerMatcher) (buyerOf : Nat → HumanBuyer)
    (now : Int) (acc : List MatcherInbox) (ctx : DecisionContext) :
    Except String (List MatcherInbox) :=
  if matcherPathLoopGuards m ctx (buyerOf ctx.buyerId) now then do
    let secs ← timedeltaSeconds m.ageLimit
    pure (acc ++ [{ matcherId := m.id, decisionContextId := ctx.id,
                    status := "new", createdAt := now,
                    expiresAt := now + secs }])
  else pure acc

def recomputeInboxForMatcher (m : SellerMatcher)
    (contexts : List DecisionContext) (buyerOf : Nat → HumanBuyer) (now : Int) :
    Except String (List MatcherInbox) :=
  (contexts.filter (fun ctx => numericPrefilter m ctx)).foldlM
    (matcherFanoutStep m buyerOf now) []

/-! ## Agent bridge validation loop (src/infonomy_server/llm.py `call_llm`) -/

/-- A parsed `LLMResponse` (llm.py lines 11-37).  The pydantic validator
guarantees that a parsed reply carries exactly one branch, but the loop in
`call_llm` re-tests truthiness, so the embedding keeps both raw shapes:
`choose ids` (`chosen_offer_ids`), `followup q b` (`followup_query` with its
mandatory `followup_query_budget`). -/
inductive LLMResponse where
  | choose (ids : List Nat)
  | followup (query : String) (budget : ℤ)
  deriving Repr, DecidableEq

/-- The value `call_llm` returns: either accepted chosen offer ids, or the
data of the child `DecisionContext` it builds for a follow-up. -/
inductive CallLLMResult where
  | chosen (ids : List Nat)
  | child (query : String) (budget : ℤ)
  deriving Repr, DecidableEq

/-- `used_budget = sum(io.price for io in known_info)` (llm.py line 159). -/
def usedBudget (knownInfo : List InfoOffer) : ℤ :=
  knownInfo.foldl (fun s io => s + io.price) 0

/-- `total_cost = sum(io.price for io in offers if io.id in chosen_ids)`
(llm.py line 304). -/
def totalCostOf (offers : List InfoOffer) (chosenIds : List Nat) : ℤ :=
  (offers.filter (fun io => chosenIds.contains io.id)).foldl
    (fun s io => s + io.price) 0

/-- The validation `call_llm` applies to one reply (llm.py lines 291-367):
`some result` when the reply is accepted this iteration, `none` when the
loop re-prompts (or falls through) and asks the agent again. -/
def replyAccepted (offers : List InfoOffer) (maxBudget usedB : ℤ) :
    LLMResponse → Option CallLLMResult
  | .choose ids =>
    -- `if response.chosen_offer_ids:` — truthy only when nonempty
    if ids.isEmpty then none
    else
      -- subset check against `available_ids = set(io.id for io in offers)`
      if !(ids.all (fun i => (offers.map (fun o => o.id)).contains i)) then none
      else
        -- budget check: `total_cost > context.max_budget - used_budget`
        if totalCostOf offers ids > maxBudget - usedB then none
        else some (.chosen ids)
  | .followup q b =>
    -- `elif response.followup_query:` — truthy only when nonempty
    if q == "" then none
    else
      -- `budget > max_budget - used_budget or budget < 0`
      if b > maxBudget - usedB || b < 0 then none
      else some (.child q b)

/-- The `while not accept` loop of `call_llm` (llm.py lines 187-367), with
the successive agent replies supplied as a list: each iteration makes one
agent call; an invalid reply only appends the validation error to the
message history and loops.  `none` means the loop is still running after
consuming every supplied reply — the source has no retry cap, so nothing
else can stop it. -/
def callLLMLoop (offers : List InfoOffer) (maxBudget usedB : ℤ) :
    List LLMResponse → Option CallLLMResult
  | [] => none
  | r :: rest =>
    match replyAccepted offers maxBudget usedB r with
    | some res => some res
    | none => callLLMLoop offers maxBudget usedB rest

/-! ## Bot-seller offer generation (src/infonomy_server/tasks.py) -/

/-- `BotSeller` (models.py plus the `price` column used by tasks.py line
163-167 and schemas.py `BotSellerRead`). -/
structure BotSeller where
  id : Nat
  userId : Nat
  info : Option String
  price : Option ℤ
  llmModel : Option String
  llmPrompt : Option String
  deriving Repr, DecidableEq

/-- Outcome of the underlying LLM provider call made for a bot seller:
either a structured `BotSellerResponse` or a raised exception (which covers
both transport failures and structured-parse failures). -/
inductive BotLLMOutcome where
  | success (privateInfo publicInfo : String) (price : ℤ)
  | failure (errMsg : String)
  deriving Repr, DecidableEq

/-- The offer fields `_generate_bot_seller_offer` constructs (tasks.py lines
180-189); the DB-assigned id is omitted. -/
structure InfoOfferDraft where
  botSellerId : Nat
  contextId : Nat
  privateInfo : String
  publicInfo : String
  price : ℤ
  inspected : Bool
  purchased : Bool
  deriving Repr, DecidableEq

/-- `_call_bot_seller_llm` (tasks.py lines 192-329).  The inner `try` block
re-raises any provider error, but the function's outer `except Exception`
catches it and returns the fallback triple
`(f"Error generating information: {e}", "Information temporarily unavailable", 0.0)`
(lines 320-329), so the function never raises. -/
def callBotSellerLLM (outcome : BotLLMOutcome) : String × String × ℤ :=
  match outcome with
  | .success priv pub price => (priv, pub, price)
  | .failure msg =>
    ("Error generating information: " ++ msg,
     "Information temporarily unavailable", 0)

/-- Python truthiness of an optional string. -/
def optStrTruthy : Option String → Bool
  | some s => s != ""
  | none => false

/-- `_generate_bot_seller_offer` (tasks.py lines 160-189).  The
`except Exception: return None` around the LLM branch is dead code because
`_call_bot_seller_llm` catches its own exceptions, so the LLM branch always
produces an offer, clamping the price to `min(price, ctx.max_budget)`. -/
def generateBotSellerOffer (bs : BotSeller) (ctx : DecisionContext)
    (outcome : BotLLMOutcome) : Option InfoOfferDraft :=
  -- `if bot_seller.info and bot_seller.price is not None:`
  if optStrTruthy bs.info && bs.price.isSome then
    some { botSellerId := bs.id, contextId := ctx.id,
           privateInfo := bs.info.getD "",
           publicInfo := "Fixed information from BotSeller " ++ toString bs.id,
           price := bs.price.getD 0,
           inspected := false, purchased := false }
  -- `elif bot_seller.llm_model and bot_seller.llm_prompt:`
  else if optStrTruthy bs.llmModel && optStrTruthy bs.llmPrompt then
    let res := callBotSellerLLM outcome
    some { botSellerId := bs.id, contextId := ctx.id,
           privateInfo := res.1,
           publicInfo := res.2.1,
           price := min res.2.2 ctx.maxBudget,
           inspected := false, purchased := false }
  else none

/-! ## Engine store state

The store is modelled for a single buyer (`inspect_task` only ever touches
the one `User`/`HumanBuyer` named by `inspection.buyer_id`). -/

/-- `Inspection` (the model used by tasks.py and routers/inspection.py;
fields per schemas.py `InspectionRead`/`InspectionCreate` and every use
site). `infoOfferIds` is the offer association filled by the router /
engine. -/
structure Inspection where
  id : Nat
  decisionContextId : Nat
  buyerId : Nat
  knownOffers : List Nat
  purchased : List Nat
  infoOfferIds : List Nat
  elderBrotherId : Option Nat
  youngerBrotherId : Option Nat
  childContextId : Option Nat
  deriving Repr, DecidableEq

/-- The arguments `inspect_task` passes to `call_llm` (tasks.py lines
409-415): the context, the inspection's offers with private info, and
`known_info=[]` — the source comments `# Always empty as per specification`. -/
structure CallLLMArgs where
  contextId : Nat
  offers : List InfoOffer
  knownInfo : List InfoOffer
  deriving Repr, DecidableEq

/-- Construction of the `call_llm` argument list at the engine's call site
(tasks.py lines 409-415). -/
def inspectTaskCallArgs (ctx : DecisionContext) (offers : List InfoOffer) :
    CallLLMArgs :=
  { contextId := ctx.id, offers := offers, knownInfo := [] }

/-- An offer arriving for a child context while the engine polls
(environment input: in the source these rows are inserted by bot dispatch
or human sellers during the wait loop, tasks.py lines 475-508). -/
structure ArrivingOffer where
  privateInfo : String
  publicInfo : Option String
  price : ℤ
  deriving Repr, DecidableEq

/-- One validated outcome of a `call_llm` invocation, as consumed by
`inspect_task`: the pair `(chosen_ids, child_ctx)` it returns, with the
offers that will appear for a spawned child supplied alongside by the
environment.  `nothing` is the `(falsy, falsy)` pair of tasks.py line 574. -/
inductive AgentReply where
  | choose (ids : List Nat)
  | followup (query : String) (budget : ℤ) (arriving : List ArrivingOffer)
  | nothing
  deriving Repr, DecidableEq

/-- The store visible to the engine. -/
structure EngineState where
  user : UserRec
  buyer : Option HumanBuyer
  matchers : List SellerMatcher
  contexts : List DecisionContext
  offers : List InfoOffer
  inspections : List Inspection
  inbox : List MatcherInbox
  llmCalls : List CallLLMArgs
  nextCtxId : Nat
  nextInspId : Nat
  nextOfferId : Nat

def findCtx (st : EngineState) (i : Nat) : Option DecisionContext :=
  st.contexts.find? (fun c => c.id == i)

def findInsp (st : EngineState) (i : Nat) : Option Inspection :=
  st.inspections.find? (fun n => n.id == i)

/-- `session.get(User, uid)` against the single modelled user row. -/
def findUser (st : EngineState) (uid : Nat) : Option UserRec :=
  if st.user.id == uid then some st.user else none

/-- `session.get(HumanBuyer, uid)`. -/
def findBuyer (st : EngineState) (uid : Nat) : Option HumanBuyer :=
  match st.buyer with
  | some b => if b.userId == uid then some b else none
  | none => none

def updateUser (st : EngineState) (f : UserRec → UserRec) : EngineState :=
  { st with user := f st.user }

def updateBuyer (st : EngineState) (f : HumanBuyer → HumanBuyer) : EngineState :=
  { st with buyer := st.buyer.map f }

def updateInsp (st : EngineState) (i : Nat) (f : Inspection → Inspection) :
    EngineState :=
  { st with inspections := st.inspections.map (fun n => if n.id == i then f n else n) }

/-- Record one `call_llm` invocation (ghost instrumentation used to state
claims about the arguments the engine passes to the agent). -/
def pushLLMCall (st : EngineState) (a : CallLLMArgs) : EngineState :=
  { st with llmCalls := st.llmCalls ++ [a] }

/-- `increment_buyer_inspected_counter` (utils.py lines 401-414):
`num_inspected[p] = num_inspected.get(p, 0) + 1`. -/
def incrInspected (b : HumanBuyer) (p : Nat) : HumanBuyer :=
  { b with numInspected := fun q => if q = p then b.numInspected p + 1 else b.numInspected q }

/-- `increment_buyer_purchased_counter` (utils.py lines 417-430). -/
def incrPurchased (b : HumanBuyer) (p : Nat) : HumanBuyer :=
  { b with numPurchased := fun q => if q = p then b.numPurchased p + 1 else b.numPurchased q }

/-- `increment_buyer_query_counter` (utils.py lines 388-398). -/
def incrQueries (b : HumanBuyer) (p : Nat) : HumanBuyer :=
  { b with numQueries := fun q => if q = p then b.numQueries p + 1 else b.numQueries q }

/-! ## Root context creation (src/infonomy_server/routers/decision_contexts.py) -/

/-- The request body `DecisionContextCreateNonRecursive` (schemas.py). -/
structure CreateContextRequest where
  query : Option String
  contextPages : Option (List String)
  maxBudget : ℤ
  priority : Nat
  deriving Repr, DecidableEq

/-- The two 400 responses of `create_decision_context`. -/
inductive CreateContextError where
  | noBuyerProfile
  | insufficientFunds
  deriving Repr, DecidableEq

/-- `create_decision_context` (routers/decision_contexts.py lines 30-66) up
to its commit: profile check, the insufficient-funds check
`max_budget > available_balance`, the escrow `available_balance -= max_budget`
committed together with the context insert, then the query-counter
increment.  The post-commit inbox fan-out and async bot dispatch are
modelled separately by `recomputeInboxForContext`. -/
def createDecisionContext (st : EngineState) (req : CreateContextRequest)
    (now : Int) : Except CreateContextError (EngineState × DecisionContext) :=
  match st.buyer with
  | none => .error .noBuyerProfile
  | some buyer =>
    if req.maxBudget > st.user.availableBalance then
      .error .insufficientFunds
    else
      let ctx : DecisionContext :=
        { id := st.nextCtxId, query := req.query,
          contextPages := req.contextPages, parentId := none,
          buyerId := st.user.id, maxBudget := req.maxBudget,
          priority := req.priority, createdAt := now }
      let st := updateUser st (fun u =>
        { u with availableBalance := u.availableBalance - req.maxBudget })
      let st := { st with contexts := st.contexts ++ [ctx],
                          nextCtxId := st.nextCtxId + 1 }
      let st := { st with buyer := some (incrQueries buyer ctx.priority) }
      .ok (st, ctx)

/-! ## The inspection engine (src/infonomy_server/tasks.py `inspect_task`)

`inspect_task` is written to recurse into child inspections (`depth+1`) and
younger brother inspections (`breadth+1`); the explicit `fuel` argument only
makes the recursion structural — the source's bound check guarantees at most
`max_depth + max_breadth` nested calls, so any fuel above that is never
exhausted.  Agent replies are consumed from `replies` in call order.
Exceptions propagate as in the source, aborting the task: this covers the
inbox recompute — and the spawn branch's child-offer wait loop itself, whose
first statement `session.exec(select(InfoOffer)...).count()` (tasks.py lines
493-496) raises `AttributeError`, because SQLAlchemy's `ScalarResult` has no
`.count()` method (every working count in this repo uses the legacy
`db.query(...).count()` API).  The poll therefore aborts every follow-up run
on its first iteration, and the child/brother recursion after it is
unreachable; it is still translated below, behind the poll's result, to
mirror the source. -/

/-- Add an offer row for a child context (an arrival during the poll wait —
only reachable if the poll itself could run). -/
def addArrivingOffer (st : EngineState) (ctxId : Nat) (a : ArrivingOffer) :
    EngineState :=
  { st with
    offers := st.offers ++
      [{ id := st.nextOfferId, contextId := ctxId,
         privateInfo := a.privateInfo, publicInfo := a.publicInfo,
         price := a.price, inspected := false, purchased := false }],
    nextOfferId := st.nextOfferId + 1 }

/-- The exception raised by the first statement of the spawn-branch wait
loop: `session.exec(select(InfoOffer)...)` returns a SQLAlchemy
`ScalarResult`, which has no `.count()` method. -/
def pollCountAttributeError : String :=
  "AttributeError: 'ScalarResult' object has no attribute 'count'"

/-- The child-offer wait loop of the spawn branch (tasks.py lines 492-508):
`while True: count = session.exec(select(InfoOffer).where(...)).count()`.
The `.count()` call raises `AttributeError` on the loop's first iteration,
before any offer check or sleep, so the poll never succeeds. -/
def pollChildOffers : Except String Unit := .error pollCountAttributeError

def inspectTask (fuel : Nat) (st : EngineState) (replies : List AgentReply)
    (inspectionId : Nat) (depth breadth maxDepth maxBreadth : Nat)
    (now : Int) : Except String (EngineState × List AgentReply × List Nat) :=
  match fuel with
  | 0 => .error "recursion fuel exhausted"
  | fuel + 1 =>
    -- `if depth >= max_depth or breadth >= max_breadth:` (line 364)
    if maxDepth ≤ depth ∨ maxBreadth ≤ breadth then
      if depth = 0 then
        match findInsp st inspectionId with
        | some insp =>
          match findCtx st insp.decisionContextId, findUser st insp.buyerId with
          | some ctx, some _ =>
            -- restore the escrow and return `inspection.purchased` (lines 367-376)
            .ok (updateUser st (fun u =>
              { u with availableBalance := u.availableBalance + ctx.maxBudget }),
              replies, insp.purchased)
          | _, _ => .ok (st, replies, insp.purchased)
        | none => .ok (st, replies, [])
      else .ok (st, replies, [])
    else
      match findInsp st inspectionId with
      | none => .ok (st, replies, [])  -- lines 380-385
      | some insp =>
        match findCtx st insp.decisionContextId, findBuyer st insp.buyerId,
              findUser st insp.buyerId with
        | some ctx, some _, some _ =>
          -- 1) fetch the inspection's offers (line 395)
          let offers := st.offers.filter (fun o => insp.infoOfferIds.contains o.id)
          if offers.isEmpty then
            -- no offers → finish, restoring escrow at depth 0 (lines 397-406)
            if depth = 0 then
              .ok (updateUser st (fun u =>
                { u with availableBalance := u.availableBalance + ctx.maxBudget }),
                replies, insp.purchased)
            else .ok (st, replies, insp.purchased)
          else
            -- 2) call the agent with known_info=[] (lines 408-415)
            let st := pushLLMCall st (inspectTaskCallArgs ctx offers)
            let reply := replies.headD .nothing
            let replies := replies.tail
            -- increment inspected counter at depth 0 (lines 417-421)
            let st := if depth = 0 then
                updateBuyer st (fun b => incrInspected b ctx.priority)
              else st
            let chosenIds : List Nat :=
              match reply with | .choose ids => ids | _ => []
            let childReq : Option (String × ℤ × List ArrivingOffer) :=
              match reply with
              | .followup q b arr => some (q, b, arr)
              | _ => none
            -- 3a) purchase branch (lines 424-452)
            if !chosenIds.isEmpty then
              let st := updateInsp st insp.id (fun n =>
                { n with purchased := n.purchased ++ chosenIds })
              let st := updateUser st (fun u =>
                { u with purchasedInfoOffers :=
                    (chosenIds.foldl
                      (fun acc oid => if acc.contains oid then acc else acc ++ [oid])
                      u.purchasedInfoOffers) })
              let st :=
                if depth = 0 then
                  let st := updateBuyer st (fun b => incrPurchased b ctx.priority)
                  -- `total_cost = sum(...)`, `user.balance -= total_cost`,
                  -- `user.available_balance += ctx.max_budget` (lines 439-446)
                  let totalCost := totalCostOf offers chosenIds
                  updateUser st (fun u =>
                    { u with balance := u.balance - totalCost,
                             availableBalance := u.availableBalance + ctx.maxBudget })
                else st
              .ok (st, replies, chosenIds)
            else
              match childReq with
              | some (q, b, arriving) =>
                -- 3b) spawn branch (lines 455-572); the child context is the
                -- one `call_llm` builds (llm.py lines 350-359)
                let childCtx : DecisionContext :=
                  { id := st.nextCtxId, query := some q,
                    contextPages := ctx.contextPages, parentId := some ctx.id,
                    buyerId := ctx.buyerId, maxBudget := b, priority := 1,
                    createdAt := now }
                let st := { st with contexts := st.contexts ++ [childCtx],
                                    nextCtxId := st.nextCtxId + 1 }
                let st := updateInsp st insp.id (fun n =>
                  { n with childContextId := some childCtx.id })
                -- `recompute_inbox_for_context(child_ctx, session)` (line 466);
                -- an exception here propagates and aborts the task
                match recomputeInboxForContext childCtx st.matchers
                    ((findBuyer st childCtx.buyerId).getD
                      ⟨childCtx.buyerId, fun _ => 0, fun _ => 0, fun _ => 0⟩) now with
                | .error e => .error e
                | .ok rows =>
                  let st := { st with inbox :=
                    (st.inbox.filter (fun r => r.decisionContextId != childCtx.id) ++ rows) }
                  -- the wait loop (lines 492-508): its first `.count()` call
                  -- raises AttributeError, aborting the task; everything
                  -- after it is unreachable but translated to mirror the source
                  match pollChildOffers with
                  | .error e => .error e
                  | .ok _ =>
                    -- offers that would arrive during the wait
                    let st := arriving.foldl (fun s a => addArrivingOffer s childCtx.id a) st
                    -- child inspection over all of the child's offers (lines 510-528)
                    let childOffers := st.offers.filter (fun o => o.contextId == childCtx.id)
                    let childInsp : Inspection :=
                      { id := st.nextInspId, decisionContextId := childCtx.id,
                        buyerId := insp.buyerId, knownOffers := insp.knownOffers,
                        purchased := [], infoOfferIds := childOffers.map (fun o => o.id),
                        elderBrotherId := none, youngerBrotherId := none,
                        childContextId := none }
                    let st := { st with inspections := st.inspections ++ [childInsp],
                                        nextInspId := st.nextInspId + 1 }
                    -- recurse into the child with depth+1 (lines 531-537)
                    match inspectTask fuel st replies childInsp.id (depth + 1) breadth
                        maxDepth maxBreadth now with
                    | .error e => .error e
                    | .ok (st, replies, childPurchased) =>
                      let inspNow := (findInsp st insp.id).getD insp
                      let currentPurchased := inspNow.purchased ++ childPurchased
                      -- younger brother with expanded known_offers (lines 542-563)
                      let brother : Inspection :=
                        { id := st.nextInspId, decisionContextId := ctx.id,
                          buyerId := insp.buyerId,
                          knownOffers := inspNow.knownOffers ++ currentPurchased,
                          purchased := [], infoOfferIds := offers.map (fun o => o.id),
                          elderBrotherId := some insp.id, youngerBrotherId := none,
                          childContextId := none }
                      let st := { st with inspections := st.inspections ++ [brother],
                                          nextInspId := st.nextInspId + 1 }
                      let st := updateInsp st insp.id (fun n =>
                        { n with youngerBrotherId := some brother.id })
                      -- recurse into the brother with breadth+1 (lines 566-572)
                      inspectTask fuel st replies brother.id depth (breadth + 1)
                        maxDepth maxBreadth now
              | none =>
                -- 4) nothing to buy and no child (lines 574-582)
                if depth = 0 then
                  .ok (updateUser st (fun u =>
                    { u with availableBalance := u.availableBalance + ctx.maxBudget }),
                    replies, insp.purchased)
                else .ok (st, replies, insp.purchased)
        | _, _, _ => .ok (st, replies, insp.purchased)  -- line 391-392

/-! ## Derived views used to state claims -/

/-- The offers of the store whose ids occur in the given id list — the
spec's "offers by id in `I.known_offers`, with their private_info". -/
def offersByIds (db : List InfoOffer) (ids : List Nat) : List InfoOffer :=
  db.filter (fun o => ids.contains o.id)

/-- The remaining budget `call_llm` validates the agent's reply against:
`context.max_budget - used_budget` (llm.py lines 305, 325). -/
def budgetRemaining (maxBudget : ℤ) (knownInfo : List InfoOffer) : ℤ :=
  maxBudget - usedBudget knownInfo

/-- Successful fan-out result (`none` when the refresh raised). -/
def fanoutRows : Except String (List MatcherInbox) → Option (List MatcherInbox) :=
  Except.toOption

/-- The exception message of a failed fan-out (`none` on success). -/
def fanoutError : Except String (List MatcherInbox) → Option String
  | .error s => some s
  | .ok _ => none

/-- The exception message of an aborted engine run (`none` on success). -/
def inspectError : Except String (EngineState × List AgentReply × List Nat) → Option String
  | .error s => some s
  | .ok _ => none

/-! ## Concrete scenario states

The spec's "happy escrow" pipeline: a buyer with `total = available = 100`
creates a root context with `max_budget = 40` and priority 1, three offers
priced 10, 20, 30 arrive, and a root inspection over them is started. -/

/-- A fresh buyer profile: all per-priority counters zero. -/
def buyerZero : HumanBuyer := ⟨1, fun _ => 0, fun _ => 0, fun _ => 0⟩

/-- Initial store: one user with both ledgers at 100 and a buyer profile. -/
def stInit : EngineState :=
  { user := ⟨1, 100, 100, []⟩, buyer := some buyerZero, matchers := [],
    contexts := [], offers := [], inspections := [], inbox := [],
    llmCalls := [], nextCtxId := 100, nextInspId := 500, nextOfferId := 900 }

/-- The create-context request of the happy-escrow scenario. -/
def happyRequest : CreateContextRequest := ⟨some "happy query", none, 40, 1⟩

/-- Store after the root-context create path ran (escrow deducted,
context id 100 inserted). -/
def stEscrowed : EngineState :=
  match createDecisionContext stInit happyRequest 0 with
  | .ok (s, _) => s
  | .error _ => stInit

/-- A plain seller offer row. -/
def mkOffer (i c : Nat) (p : ℤ) : InfoOffer :=
  ⟨i, c, "private " ++ toString i, some ("public " ++ toString i), p, false, false⟩

/-- The root inspection the router creates over offers 1, 2, 3
(`known_offers` starts as the user's purchased offers, here `[]`). -/
def happyInspection : Inspection := ⟨500, 100, 1, [], [], [1, 2, 3], none, none, none⟩

/-- Store with the three offers posted and the root inspection created. -/
def stHappyReady : EngineState :=
  { stEscrowed with
    offers := [mkOffer 1 100 10, mkOffer 2 100 20, mkOffer 3 100 30],
    inspections := [happyInspection], nextInspId := 501 }

/-- The happy-escrow engine run: the agent picks offers 1 and 2 (prices
10 and 20). -/
def happyRun : Except String (EngineState × List AgentReply × List Nat) :=
  inspectTask 10 stHappyReady [.choose [1, 2]] 500 0 0 3 3 0

/-- Engine run for the counter claim: the agent asks a follow-up, so the
run enters the spawn branch (a second reply is supplied in case a brother
inspection were ever reached — it is not: the wait-loop's `.count()` call
aborts the task first). -/
def counterRun : Except String (EngineState × List AgentReply × List Nat) :=
  inspectTask 10 stHappyReady [.followup "need more" 10 [], .choose [1]] 500 0 0 3 3 0

/-- A root inspection created over an empty offer list (the router builds
one when the context has no offers yet). -/
def emptyInspection : Inspection := ⟨500, 100, 1, [], [], [], none, none, none⟩

/-- Store for the offer-less scenario: escrowed context, no offers posted,
root inspection over nothing. -/
def stNoOffers : EngineState :=
  { stEscrowed with inspections := [emptyInspection], nextInspId := 501 }

/-- Engine run on a root inspection with no offers: it completes normally,
restoring the escrow, without ever reaching the agent call. -/
def noOfferRun : Except String (EngineState × List AgentReply × List Nat) :=
  inspectTask 10 stNoOffers [] 500 0 0 3 3 0

/-- An offer purchased earlier (under another context) that the root
inspection of the `known_info` scenario starts out knowing. -/
def knownOffer : InfoOffer := ⟨7, 99, "previously bought info", none, 10, false, true⟩

/-- Root inspection whose `known_offers` is the nonempty list `[7]`
(the router initialises `known_offers` from the user's purchased offers). -/
def knownInspection : Inspection := ⟨500, 100, 1, [7], [], [1, 2], none, none, none⟩

/-- Store for the `known_info` scenario. -/
def stKnown : EngineState :=
  { stEscrowed with
    user := { stEscrowed.user with purchasedInfoOffers := [7] },
    offers := [mkOffer 1 100 10, mkOffer 2 100 20, knownOffer],
    inspections := [knownInspection], nextInspId := 501 }

/-- Engine run on the `known_info` scenario: the agent buys offer 1. -/
def knownRun : Except String (EngineState × List AgentReply × List Nat) :=
  inspectTask 10 stKnown [.choose [1]] 500 0 0 3 3 0

/-! Concrete matcher-side instances. -/

/-- A root context (id 200, budget 40, priority 1, created at epoch 0). -/
def rootCtx : DecisionContext := ⟨200, some "what is up", none, none, 1, 40, 1, 0⟩

/-- A recursive (child) context: `parent_id = 200`. -/
def childCtx : DecisionContext := ⟨201, some "what is up", none, some 200, 1, 10, 1, 0⟩

/-- A subscription with every predicate at its permissive default and the
default one-week age limit. -/
def weekMatcher : SellerMatcher := ⟨10, none, none, 0, 0, 0, 0, none, some 604800⟩

/-- Same subscription but with a 60-second age limit. -/
def shortAgeMatcher : SellerMatcher := ⟨11, none, none, 0, 0, 0, 0, none, some 60⟩

/-- Same subscription but with `age_limit = None` ("no constraint"). -/
def noAgeMatcher : SellerMatcher := ⟨12, none, none, 0, 0, 0, 0, none, none⟩

/-- One offer priced 10 available to the agent-validation loop. -/
def loopOffer : InfoOffer := ⟨1, 100, "p1", none, 10, false, false⟩

/-- A reply whose chosen ids are not a subset of the available offers. -/
def invalidReply : LLMResponse := .choose [99]

/-- A reply the validation accepts (offer 1, price 10 ≤ budget 40). -/
def validReply : LLMResponse := .choose [1]

/-- An LLM-backed bot seller (no fixed info). -/
def llmBot : BotSeller := ⟨5, 2, none, none, some "openrouter/some-model", some "sell your knowledge"⟩

/-- Every agent call recorded in the store so far passed `known_info = []`. -/
def CallsNil (st : EngineState) : Prop := ∀ c ∈ st.llmCalls, c.knownInfo = []

/-- A store that already records one agent call (with empty `known_info`),
used to instantiate the engine-wide invariant at a concrete input. -/
def stWitness : EngineState :=
  { stInit with llmCalls := [{ contextId := 100, offers := [mkOffer 1 100 10], knownInfo := [] }] }

/-! ## Helper lemmas: state-update plumbing -/

@[simp] theorem updateUser_llmCalls (st : EngineState) (f : UserRec → UserRec) :
    (updateUser st f).llmCalls = st.llmCalls := rfl

@[simp] theorem updateBuyer_llmCalls (st : EngineState) (f : HumanBuyer → HumanBuyer) :
    (updateBuyer st f).llmCalls = st.llmCalls := rfl

@[simp] theorem updateInsp_llmCalls (st : EngineState) (i : Nat) (f : Inspection → Inspection) :
    (updateInsp st i f).llmCalls = st.llmCalls := rfl

@[simp] theorem addArrivingOffer_llmCalls (st : EngineState) (c : Nat) (a : ArrivingOffer) :
    (addArrivingOffer st c a).llmCalls = st.llmCalls := rfl

@[simp] theorem pushLLMCall_llmCalls (st : EngineState) (a : CallLLMArgs) :
    (pushLLMCall st a).llmCalls = st.llmCalls ++ [a] := rfl

theorem foldl_addArrivingOffer_llmCalls (l : List ArrivingOffer)
    (st : EngineState) (c : Nat) :
    (l.foldl (fun s a => addArrivingOffer s c a) st).llmCalls = st.llmCalls := by
  induction l generalizing st with
  | nil => rfl
  | cons a t ih => simpa using ih (addArrivingOffer st c a)

@[simp] theorem exceptBind_error {α β : Type} (e : String) (f : α → Except String β) :
    (Except.error e : Except String α) >>= f = Except.error e := rfl

@[simp] theorem exceptBind_ok {α β : Type} (a : α) (f : α → Except String β) :
    (Except.ok a : Except String α) >>= f = f a := rfl

/-- Folding the refresh-by-context matching loop errors as soon as it meets
a matching subscription whose `age_limit` is `None` (the
`timedelta(seconds=None)` crash), regardless of what precedes it. -/
theorem contextFanout_error_of_none_ageLimit (ctx : DecisionContext)
    (buyer : HumanBuyer) (now : Int) :
    ∀ (l : List SellerMatcher) (acc : List MatcherInbox),
      (∃ m ∈ l, contextPathLoopGuards m ctx buyer ∧ m.ageLimit = none) →
      l.foldlM (contextFanoutStep ctx buyer now) acc = .error timedeltaNoneError := by
  intro l
  induction l with
  | nil => intro acc h; simp at h
  | cons m t ih =>
    intro acc h
    obtain ⟨m0, hm0, hg, ha⟩ := h
    rcases List.mem_cons.mp hm0 with rfl | hmem
    · simp [List.foldlM_cons, contextFanoutStep, hg, ha, timedeltaSeconds]
    · by_cases hg' : contextPathLoopGuards m ctx buyer
      · rcases hal : m.ageLimit with _ | s
        · simp [List.foldlM_cons, contextFanoutStep, hg', hal, timedeltaSeconds]
        · simp [List.foldlM_cons, contextFanoutStep, hg', hal, timedeltaSeconds]
          exact ih _ ⟨m0, hmem, hg, ha⟩
      · simp [List.foldlM_cons, contextFanoutStep, hg']
        exact ih _ ⟨m0, hmem, hg, ha⟩

/-- Same crash for the refresh-by-subscription loop when the subscription
itself has `age_limit = None` and any candidate context matches. -/
theorem matcherFanout_error_of_none_ageLimit (m : SellerMatcher)
    (buyerOf : Nat → HumanBuyer) (now : Int) (hage : m.ageLimit = none) :
    ∀ (l : List DecisionContext) (acc : List MatcherInbox),
      (∃ ctx ∈ l, matcherPathLoopGuards m ctx (buyerOf ctx.buyerId) now) →
      l.foldlM (matcherFanoutStep m buyerOf now) acc = .error timedeltaNoneError := by
  intro l
  induction l with
  | nil => intro acc h; simp at h
  | cons c t ih =>
    intro acc h
    obtain ⟨c0, hc0, hg⟩ := h
    rcases List.mem_cons.mp hc0 with rfl | hmem
    · simp [List.foldlM_cons, matcherFanoutStep, hg, hage, timedeltaSeconds]
    · by_cases hg' : matcherPathLoopGuards m c (buyerOf c.buyerId) now
      · simp [List.foldlM_cons, matcherFanoutStep, hg', hage, timedeltaSeconds]
      · simp [List.foldlM_cons, matcherFanoutStep, hg']
        exact ih _ ⟨c0, hmem, hg⟩

/-- Every row produced by the refresh-by-subscription loop comes from a
candidate context that passed the loop guards — in particular one whose
`parent_id` is `NULL`. -/
theorem matcherFanout_rows_from_roots (m : SellerMatcher)
    (buyerOf : Nat → HumanBuyer) (now : Int) :
    ∀ (l : List DecisionContext) (acc rows : List MatcherInbox),
      l.foldlM (matcherFanoutStep m buyerOf now) acc = .ok rows →
      ∀ r ∈ rows, r ∈ acc ∨
        ∃ ctx ∈ l, ctx.id = r.decisionContextId ∧ ctx.parentId = none := by
  intro l
  induction l with
  | nil =>
    intro acc rows h r hr
    have hae : acc = rows := by simpa [pure, Except.pure] using h
    subst hae
    exact Or.inl hr
  | cons c t ih =>
    intro acc rows h r hr
    rw [List.foldlM_cons] at h
    by_cases hg : matcherPathLoopGuards m c (buyerOf c.buyerId) now
    · rcases hal : m.ageLimit with _ | s
      · simp [matcherFanoutStep, hg, hal, timedeltaSeconds] at h
      · simp only [matcherFanoutStep, hg, hal, timedeltaSeconds, if_true,
          exceptBind_ok] at h
        have hparent : c.parentId = none := by
          have := hg
          simp only [matcherPathLoopGuards, Bool.and_eq_true] at this
          exact Option.isNone_iff_eq_none.mp this.1.1.1.1.1
        rcases ih _ rows h r hr with hacc | ⟨ctx, hmem, hid, hpar⟩
        · rcases List.mem_append.mp hacc with h1 | h2
          · exact Or.inl h1
          · refine Or.inr ⟨c, List.mem_cons_self c t, ?_, hparent⟩
            simp at h2
            rw [h2]
        · exact Or.inr ⟨ctx, List.mem_cons_of_mem c hmem, hid, hpar⟩
    · simp only [matcherFanoutStep, hg, if_false, Bool.false_eq_true] at h
      rcases ih _ rows h r hr with hacc | ⟨ctx, hmem, hid, hpar⟩
      · exact Or.inl hacc
      · exact Or.inr ⟨ctx, List.mem_cons_of_mem c hmem, hid, hpar⟩

/-- The matcher-path loop guards are exactly the context-path loop guards
plus the parent check and the age-limit skip (the shared predicates are
textually identical in the source). -/
theorem matcherPathLoopGuards_decompose (m : SellerMatcher)
    (ctx : DecisionContext) (buyer : HumanBuyer) (now : Int) :
    matcherPathLoopGuards m ctx buyer now =
      (ctx.parentId.isNone && contextPathLoopGuards m ctx buyer &&
        !(ageLimitSkip m ctx now)) := by
  simp [matcherPathLoopGuards, contextPathLoopGuards, ageLimitSkip, Bool.and_assoc]

/-- Engine-wide invariant: a successful `inspect_task` run only records
agent calls whose `known_info` argument is the empty list (the engine
builds each call with `inspectTaskCallArgs`, which hard-codes
`known_info=[]`). -/
theorem inspectTask_calls_knownInfo_nil :
    ∀ (fuel : Nat) (st : EngineState) (replies : List AgentReply)
      (iid d b md mb : Nat) (now : Int) (st' : EngineState)
      (rs : List AgentReply) (res : List Nat),
      inspectTask fuel st replies iid d b md mb now = .ok (st', rs, res) →
      CallsNil st → CallsNil st' := by
  intro fuel
  cases fuel with
  | zero =>
    intro st replies iid d b md mb now st' rs res h h0
    simp [inspectTask] at h
  | succ fuel =>
    intro st replies iid d b md mb now st' rs res h h0
    rw [inspectTask] at h
    by_cases hd : d = 0 <;>
      simp only [hd, if_true, if_false, ite_true, ite_false] at h
    all_goals (
      split at h <;>
      try (split at h) <;>
      try (split at h) <;>
      try (split at h) <;>
      try (split at h) <;>
      try (split at h))
    all_goals
      try (simp only [Except.ok.injEq, Prod.mk.injEq] at h;
           obtain ⟨h1, h2, h3⟩ := h; subst h1;
           first
             | exact h0
             | (intro c hc; simp at hc;
                rcases hc with h1 | h2
                · exact h0 c h1
                · subst h2; rfl))
    -- remaining: the spawn branch; split the recompute match — its ok
    -- branch reduces to the wait-loop poll's AttributeError, so both
    -- branches are errors and cannot equal an ok result
    all_goals (split at h <;> exact Except.noConfusion h)

/-! ## Claim theorems -/

/-- Claim C1 (code bug): the settlement step of `inspect_task` restores the
full escrow (`available_balance += ctx.max_budget`, tasks.py line 445)
instead of `max_budget - spent`.  Running the spec's happy-escrow scenario
through the embedded pipeline — escrow of 40 from `total = available = 100`,
then a root inspection that purchases the offers priced 10 and 20 — ends
with `total = 70` but `available = 100`, not the `available = 90` the claim
requires; the available balance exceeds the escrow-consistent value by
exactly the amount spent. -/
theorem c1_settlement_restores_full_escrow :
    (createDecisionContext stInit happyRequest 0).toOption.map
        (fun x => (x.1.user.balance, x.1.user.availableBalance, x.2.maxBudget))
      = some (100, 60, 40) ∧
    happyRun.toOption.map
        (fun x => (x.1.user.balance, x.1.user.availableBalance, x.2.2))
      = some (70, 100, [1, 2]) ∧
    (100 : ℤ) ≠ 90 := by decide

/-- Claim C2 (code bug): the ledger invariant
`0 ≤ available_balance ≤ total_balance` is violated by the settlement step:
after the happy-escrow run the user has `total = 70 < available = 100`. -/
theorem c2_invariant_broken_by_settlement :
    happyRun.toOption.map
        (fun x => decide (x.1.user.availableBalance ≤ x.1.user.balance))
      = some false := by decide

/-- Claim C4 counterexample: a root inspection with an empty offer list
completes normally (escrow restored, empty result) with the buyer's
`inspected[1]` counter incremented zero times — not the "exactly once"
per complete root run the claim states (the increment sits after the
agent call, which an offer-less run never reaches). -/
theorem c4_counterexample_no_offer_run_increments_zero :
    noOfferRun.toOption.map
        (fun x => ((x.1.buyer.map (fun b => b.numInspected 1)).getD 0,
                   (x.1.buyer.map (fun b => b.numPurchased 1)).getD 0,
                   x.1.user.availableBalance, x.2.2))
      = some (0, 0, 100, []) ∧ (0 : Nat) ≠ 1 := by decide

/-- Claim C4 amended: a complete root run that purchases at the root
increments `inspected[1]` and `purchased[1]` exactly once each (the
happy-escrow run); an offer-less root run completes with both counters
untouched; and a run whose agent asks a follow-up never completes at all —
the spawn branch's wait loop raises `AttributeError` (`ScalarResult` has
no `.count()`) on its first iteration, aborting the task before any child
or younger-brother inspection step, so the brother-step increment is
unreachable. -/
theorem c4_amended_counters_and_spawn_abort :
    happyRun.toOption.map
        (fun x => ((x.1.buyer.map (fun b => b.numInspected 1)).getD 0,
                   (x.1.buyer.map (fun b => b.numPurchased 1)).getD 0,
                   x.2.2))
      = some (1, 1, [1, 2]) ∧
    noOfferRun.toOption.map
        (fun x => ((x.1.buyer.map (fun b => b.numInspected 1)).getD 0,
                   (x.1.buyer.map (fun b => b.numPurchased 1)).getD 0))
      = some (0, 0) ∧
    inspectError counterRun = some pollCountAttributeError := by decide

/-- Claim C5 counterexample: in a run whose root inspection has
`known_offers = [7]` (offer 7, price 10, exists in the store), the engine's
single agent call passes `known_info = []` — not the offers selected by
`I.known_offers` — and the remaining budget validated by `call_llm` is
therefore the full `max_budget = 40` rather than `40 - 10 = 30`. -/
theorem c5_counterexample_knownInfo_always_empty :
    knownRun.toOption.map (fun x => x.1.llmCalls.map (fun c => c.knownInfo))
      = some [[]] ∧
    offersByIds stKnown.offers knownInspection.knownOffers = [knownOffer] ∧
    ([] : List InfoOffer) ≠ [knownOffer] ∧
    budgetRemaining 40 [] = 40 ∧
    budgetRemaining 40 (offersByIds stKnown.offers knownInspection.knownOffers) = 30 ∧
    (40 : ℤ) ≠ 30 := by decide

/-- Claim C6 counterexample: `recompute_inbox_for_context` has no
parent check, so invoked on a recursive context (`parent_id = 200`) — as
the engine's child-spawn path does — it inserts an inbox row for it. -/
theorem c6_counterexample_child_context_fanout :
    fanoutRows (recomputeInboxForContext childCtx [weekMatcher] buyerZero 120)
      = some [⟨10, 201, "new", 120, 604920⟩] ∧
    childCtx.parentId = some 200 := by decide

/-- Claim C7 counterexample: the two refresh entry points disagree on a
stale context.  For the same (subscription, context) pair at the same
instant — `age_limit = 60`, context age 120 seconds — refresh-by-context
inserts an inbox row while refresh-by-subscription skips the pair. -/
theorem c7_counterexample_age_limit_only_in_matcher_path :
    fanoutRows (recomputeInboxForContext rootCtx [shortAgeMatcher] buyerZero 120)
      = some [⟨11, 200, "new", 120, 180⟩] ∧
    fanoutRows (recomputeInboxForMatcher shortAgeMatcher [rootCtx] (fun _ => buyerZero) 120)
      = some [] := by decide

/-- Claim C8 counterexample: the `call_llm` re-prompt loop has no retry
cap.  Six successive invalid replies leave the loop still running (no
no-op return after four retries as the claim states), and a seventh,
valid reply is then accepted. -/
theorem c8_counterexample_no_retry_cap :
    callLLMLoop [loopOffer] 40 0 (List.replicate 6 invalidReply) = none ∧
    callLLMLoop [loopOffer] 40 0 (List.replicate 6 invalidReply ++ [validReply])
      = some (.chosen [1]) := by decide

/-- Claim C3 (confirmed): given the user has a buyer profile,
`create_decision_context` answers 400 insufficient-funds exactly when
`max_budget` exceeds `available_balance`; on success the available balance
drops by exactly `max_budget` in the same commit as the context insert and
the total balance is untouched. -/
theorem c3_insufficient_funds_iff_and_escrow_atomic (st : EngineState)
    (req : CreateContextRequest) (now : Int) (hprof : st.buyer.isSome) :
    ((createDecisionContext st req now = .error .insufficientFunds) ↔
        st.user.availableBalance < req.maxBudget) ∧
    (∀ st' ctx, createDecisionContext st req now = .ok (st', ctx) →
        st'.user.availableBalance = st.user.availableBalance - req.maxBudget ∧
        st'.user.balance = st.user.balance ∧
        ctx ∈ st'.contexts ∧ ctx.maxBudget = req.maxBudget ∧ ctx.parentId = none) := by
  rcases hb : st.buyer with _ | b
  · rw [hb] at hprof; simp at hprof
  · by_cases hc : req.maxBudget > st.user.availableBalance
    · constructor
      · simp [createDecisionContext, hb, hc]
      · intro st' ctx h
        simp [createDecisionContext, hb, hc] at h
    · constructor
      · simp [createDecisionContext, hb, hc]
      · intro st' ctx h
        simp [createDecisionContext, hb, hc, updateUser] at h
        obtain ⟨hst', hctx⟩ := h
        subst hst' hctx
        refine ⟨rfl, rfl, ?_, rfl, rfl⟩
        simp

theorem c3_witness :
    stInit.buyer.isSome ∧
    (((createDecisionContext stInit happyRequest 0 = .error .insufficientFunds) ↔
        stInit.user.availableBalance < happyRequest.maxBudget) ∧
     (∀ st' ctx, createDecisionContext stInit happyRequest 0 = .ok (st', ctx) →
        st'.user.availableBalance = stInit.user.availableBalance - happyRequest.maxBudget ∧
        st'.user.balance = stInit.user.balance ∧
        ctx ∈ st'.contexts ∧ ctx.maxBudget = happyRequest.maxBudget ∧ ctx.parentId = none)) :=
  ⟨rfl, c3_insufficient_funds_iff_and_escrow_atomic stInit happyRequest 0 rfl⟩

/-- Claim C5 amended: on every agent call the engine makes, the
`known_info` argument is the empty list (never the offers selected by
`I.known_offers`), so the remaining budget the reply is validated against
is always the full `ctx.max_budget`. -/
theorem c5_amended_engine_passes_empty_known_info
    (fuel : Nat) (st : EngineState) (replies : List AgentReply)
    (iid d b md mb : Nat) (now : Int) (st' : EngineState)
    (rs : List AgentReply) (res : List Nat)
    (h : inspectTask fuel st replies iid d b md mb now = .ok (st', rs, res))
    (h0 : CallsNil st) :
    ∀ c ∈ st'.llmCalls, c.knownInfo = [] ∧
      ∀ q : ℤ, budgetRemaining q c.knownInfo = q := by
  intro c hc
  have hnil := inspectTask_calls_knownInfo_nil fuel st replies iid d b md mb now
    st' rs res h h0 c hc
  refine ⟨hnil, ?_⟩
  intro q
  simp [budgetRemaining, usedBudget, hnil]

theorem c5_amended_witness :
    inspectTask 1 stWitness [] 999 0 0 3 3 0 = .ok (stWitness, [], []) ∧
    CallsNil stWitness ∧
    (∀ c ∈ stWitness.llmCalls, c.knownInfo = [] ∧
      ∀ q : ℤ, budgetRemaining q c.knownInfo = q) := by
  refine ⟨rfl, ?_, ?_⟩
  · intro c hc
    simp [stWitness, stInit] at hc
    subst hc
    rfl
  · refine c5_amended_engine_passes_empty_known_info 1 stWitness [] 999 0 0 3 3 0
      stWitness [] [] rfl ?_
    intro c hc
    simp [stWitness, stInit] at hc
    subst hc
    rfl

/-- Claim C6 amended: refresh-by-subscription inserts rows only for root
contexts — every row of a successful run names a candidate context whose
`parent_id` is `NULL`.  (Refresh-by-context performs no such check, and
the engine's child-spawn path invokes it on the child context, so inbox
rows are created for recursive contexts that match, as the
counterexample shows.) -/
theorem c6_amended_matcher_path_roots_only (m : SellerMatcher)
    (ctxs : List DecisionContext) (buyerOf : Nat → HumanBuyer) (now : Int)
    (rows : List MatcherInbox)
    (h : recomputeInboxForMatcher m ctxs buyerOf now = .ok rows) :
    ∀ r ∈ rows, ∃ ctx ∈ ctxs, ctx.id = r.decisionContextId ∧ ctx.parentId = none := by
  intro r hr
  unfold recomputeInboxForMatcher at h
  rcases matcherFanout_rows_from_roots m buyerOf now _ [] rows h r hr with
    hacc | ⟨ctx, hmem, hid, hpar⟩
  · simp at hacc
  · exact ⟨ctx, (List.mem_filter.mp hmem).1, hid, hpar⟩

theorem c6_amended_witness :
    recomputeInboxForMatcher weekMatcher [rootCtx] (fun _ => buyerZero) 120
      = .ok [⟨10, 200, "new", 120, 604920⟩] ∧
    (∀ r ∈ [(⟨10, 200, "new", 120, 604920⟩ : MatcherInbox)],
      ∃ ctx ∈ [rootCtx], ctx.id = r.decisionContextId ∧ ctx.parentId = none) :=
  ⟨rfl, c6_amended_matcher_path_roots_only weekMatcher [rootCtx] (fun _ => buyerZero)
    120 [⟨10, 200, "new", 120, 604920⟩] rfl⟩

/-- Claim C7 amended: for one (subscription, context) pair evaluated at the
same instant, refresh-by-subscription computes exactly what
refresh-by-context computes — same predicates, same inserted row, and the
same `timedelta` failure on `age_limit = None` — whenever the context is a
root context within the subscription's age limit; otherwise it inserts
nothing.  The two entry points differ precisely in the parent check and
the age-limit skip, which only the subscription path performs. -/
theorem c7_amended_single_pair_equivalence (m : SellerMatcher)
    (ctx : DecisionContext) (buyer : HumanBuyer) (now : Int) :
    recomputeInboxForMatcher m [ctx] (fun _ => buyer) now =
      (if ctx.parentId.isNone && !(ageLimitSkip m ctx now) then
        recomputeInboxForContext ctx [m] buyer now
      else .ok []) := by
  unfold recomputeInboxForMatcher recomputeInboxForContext
  by_cases hpre : numericPrefilter m ctx
  · simp only [List.filter_cons, List.filter_nil, hpre, if_true]
    rw [List.foldlM_cons, List.foldlM_cons]
    simp only [List.foldlM_nil, matcherFanoutStep, contextFanoutStep,
      matcherPathLoopGuards_decompose]
    by_cases hp : ctx.parentId.isNone <;>
      by_cases hcg : contextPathLoopGuards m ctx buyer <;>
        by_cases has : ageLimitSkip m ctx now <;>
          simp only [hp, hcg, has, Bool.true_and, Bool.false_and, Bool.and_true,
            Bool.and_false, Bool.not_true, Bool.not_false, if_true, if_false,
            Bool.false_eq_true, ite_false, ite_true] <;>
          rfl
  · simp only [List.filter_cons, List.filter_nil, hpre, Bool.false_eq_true,
      ite_false, List.foldlM_nil]
    split <;> rfl

/-- Claim C8 amended: the `call_llm` validation loop is unbounded — every
invalid reply is answered with one more re-prompt and the loop returns
nothing as long as replies keep failing validation (in particular a run of
only invalid replies never terminates it), while the first valid reply is
accepted whenever it arrives. -/
theorem c8_amended_unbounded_reprompt (offers : List InfoOffer)
    (maxB usedB : ℤ) (rs : List LLMResponse)
    (hinv : ∀ r ∈ rs, replyAccepted offers maxB usedB r = none) :
    callLLMLoop offers maxB usedB rs = none ∧
    (∀ good res, replyAccepted offers maxB usedB good = some res →
      callLLMLoop offers maxB usedB (rs ++ [good]) = some res) := by
  induction rs with
  | nil =>
    refine ⟨rfl, ?_⟩
    intro good res hg
    simp [callLLMLoop, hg]
  | cons r t ih =>
    have hr := hinv r (List.mem_cons_self r t)
    have ht : ∀ x ∈ t, replyAccepted offers maxB usedB x = none :=
      fun x hx => hinv x (List.mem_cons_of_mem r hx)
    obtain ⟨ih1, ih2⟩ := ih ht
    constructor
    · simp [callLLMLoop, hr, ih1]
    · intro good res hg
      simp [callLLMLoop, hr]
      exact ih2 good res hg

theorem c8_amended_witness :
    (∀ r ∈ [invalidReply, invalidReply], replyAccepted [loopOffer] 40 0 r = none) ∧
    (callLLMLoop [loopOffer] 40 0 [invalidReply, invalidReply] = none ∧
     (∀ good res, replyAccepted [loopOffer] 40 0 good = some res →
       callLLMLoop [loopOffer] 40 0 ([invalidReply, invalidReply] ++ [good]) = some res)) :=
  ⟨by decide, c8_amended_unbounded_reprompt [loopOffer] 40 0
    [invalidReply, invalidReply] (by decide)⟩

/-- Claim C10 (confirmed): for a subscription with `age_limit = None`
whose other predicates match, both refresh entry points reach
`expires_at = now + timedelta(seconds=age_limit)` and raise `TypeError`,
so no inbox row is inserted — the whole fan-out fails instead. -/
theorem c10_age_limit_none_crashes_both_paths :
    (∀ (ctx : DecisionContext) (ms : List SellerMatcher) (buyer : HumanBuyer)
        (now : Int),
      (∃ m ∈ ms, m.ageLimit = none ∧ contextPathMatches m ctx buyer) →
      recomputeInboxForContext ctx ms buyer now = .error timedeltaNoneError) ∧
    (∀ (m : SellerMatcher) (ctxs : List DecisionContext)
        (buyerOf : Nat → HumanBuyer) (now : Int),
      m.ageLimit = none →
      (∃ ctx ∈ ctxs, matcherPathMatches m ctx (buyerOf ctx.buyerId) now) →
      recomputeInboxForMatcher m ctxs buyerOf now = .error timedeltaNoneError) := by
  constructor
  · intro ctx ms buyer now h
    obtain ⟨m, hm, hage, hmatch⟩ := h
    simp only [contextPathMatches, Bool.and_eq_true] at hmatch
    unfold recomputeInboxForContext
    exact contextFanout_error_of_none_ageLimit ctx buyer now _ []
      ⟨m, List.mem_filter.mpr ⟨hm, hmatch.1⟩, hmatch.2, hage⟩
  · intro m ctxs buyerOf now hage h
    obtain ⟨ctx, hctx, hmatch⟩ := h
    simp only [matcherPathMatches, Bool.and_eq_true] at hmatch
    unfold recomputeInboxForMatcher
    exact matcherFanout_error_of_none_ageLimit m buyerOf now hage _ []
      ⟨ctx, List.mem_filter.mpr ⟨hctx, hmatch.1⟩, hmatch.2⟩

theorem c10_witness :
    (noAgeMatcher.ageLimit = none ∧
      contextPathMatches noAgeMatcher rootCtx buyerZero = true ∧
      matcherPathMatches noAgeMatcher rootCtx buyerZero 120 = true) ∧
    recomputeInboxForContext rootCtx [noAgeMatcher] buyerZero 120
      = .error timedeltaNoneError ∧
    recomputeInboxForMatcher noAgeMatcher [rootCtx] (fun _ => buyerZero) 120
      = .error timedeltaNoneError :=
  ⟨⟨rfl, by decide, by decide⟩,
   c10_age_limit_none_crashes_both_paths.1 rootCtx [noAgeMatcher] buyerZero 120
     ⟨noAgeMatcher, by simp, rfl, by decide⟩,
   c10_age_limit_none_crashes_both_paths.2 noAgeMatcher [rootCtx]
     (fun _ => buyerZero) 120 rfl ⟨rootCtx, by simp, by decide⟩⟩

/-- Claim C9 (code bug): when the provider call of an LLM-backed bot
seller fails, `_call_bot_seller_llm` swallows the exception and returns a
fallback triple, so `_generate_bot_seller_offer` emits a synthetic offer
whose `private_info` carries the error message (price clamped to 0) —
contradicting its own comment "If LLM call fails, don't create an offer". -/
theorem c9_synthetic_error_offer_emitted :
    generateBotSellerOffer llmBot rootCtx (.failure "connection error")
      = some { botSellerId := 5, contextId := 200,
               privateInfo := "Error generating information: connection error",
               publicInfo := "Information temporarily unavailable",
               price := 0, inspected := false, purchased := false } := by decide

end Infonomy
